import Mathlib

/-!
Shallow embedding of the pwa_backend service (src/index.js and its
near-duplicate src/unnamed/part_000; the two files have identical
handler logic, differing only in CORS and port wiring).

The service is an Express app with:
- a JWT session-token codec (jwt.sign / jwt.verify with a 7-day expiry),
- an authentication middleware `auth` that reads the Authorization
  header, splits it on the space character and verifies the second
  field as a JWT,
- five route handlers (register, login, me, all-users, create-user,
  update-user) that sequence calls to the Supabase identity provider
  and the `profiles` relational table.

External collaborators (Supabase auth and the profiles table) are not
part of this repository; each handler is embedded as a pure function
from its request data and an environment `Env` (recording the outcomes
the external services would return) to the HTTP response together with
the ordered list of external calls (`Effect`) the handler performs.
JavaScript's missing-or-present body fields are `Option String`;
JavaScript truthiness on strings (undefined, null and "" are falsy) is
the `truthy` predicate.
-/

/-- Session claims signed into a token at login: id, email, role
(src/index.js lines 134-142). -/
structure Claims where
  id : String
  email : String
  role : String
deriving DecidableEq

/-- Payload of a signed token: the claims, the absolute expiry
timestamp (seconds), and the secret the token was signed with (the
signature is valid exactly when the verifying secret equals the
signing secret, which is how an HMAC-signed JWT behaves). -/
structure SignedPayload where
  claims : Claims
  exp : Nat
  sig : String
deriving DecidableEq

/-- Seven days in seconds: jwt.sign is called with expiresIn "7d". -/
def sevenDays : Nat := 7 * 24 * 60 * 60

/-- Embedding of jwt.sign(claims, secret, expiresIn 7d) at clock time
`now` (seconds). -/
def jwtSign (c : Claims) (secret : String) (now : Nat) : SignedPayload :=
  { claims := c, exp := now + sevenDays, sig := secret }

/-- Embedding of jwt.verify(token, secret) at clock time `now`:
succeeds with the claims when the signature matches the secret and the
expiry has not been reached (jsonwebtoken reports TokenExpiredError as
soon as the clock reaches `exp`); fails with `none` otherwise. -/
def jwtVerify (t : SignedPayload) (secret : String) (now : Nat) : Option Claims :=
  if t.sig = secret ∧ now < t.exp then some t.claims else none

/-- A row of the `profiles` table as read back by select: columns id,
email, username, role. -/
structure Profile where
  id : String
  email : String
  username : String
  role : String
deriving DecidableEq

/-- A row as passed to a profiles insert. Fields coming from the
request body may be absent (JavaScript `undefined` is dropped from the
serialized insert payload). -/
structure InsertRow where
  id : String
  email : Option String
  username : Option String
  role : Option String
deriving DecidableEq

/-- External calls a handler can perform, in the order it performs
them. `authCreateUser`, `authSignIn` and `authUpdateUserById` are
identity-provider calls (supabase.auth); the `profiles` effects are
relational-store calls (supabase.from("profiles")). createUser is
always called with email_confirm set to true in the source, so that
constant field is not recorded. -/
inductive Effect where
  | authCreateUser (email password : Option String)
  | authSignIn (email password : Option String)
  | authUpdateUserById (id : String) (email : String)
  | profilesInsert (row : InsertRow)
  | profilesSelect (id : String)
  | profilesSelectAll
  | profilesUpdate (id : String) (email username role : Option String)
deriving DecidableEq

/-- Identity-provider calls, as opposed to relational-store calls. -/
def isProviderCall : Effect → Bool
  | .authCreateUser _ _ => true
  | .authSignIn _ _ => true
  | .authUpdateUserById _ _ => true
  | _ => false

/-- Outcomes the external services return during one request, plus the
process configuration (signing secret) and the clock. `none` in an
error slot means the call succeeds; `some m` is the error message.
`signInResult` is `some uid` when sign-in returns a user, `none` when
it returns an error or no user. `profileById` is the select-single
outcome: `none` when the row is absent or the lookup errors. -/
structure Env where
  secret : String
  now : Nat
  createUserResult : Except String String
  insertError : Option String
  signInResult : Option String
  profileById : String → Option Profile
  allProfiles : Option (List Profile)
  updateError : Option String
  authUpdateError : Option String

/-- Response bodies the handlers produce: a message object, the login
success object (token plus user), a single user object, or the raw
profiles array. -/
inductive RespBody where
  | msg (m : String)
  | loginOk (token : SignedPayload) (user : Profile)
  | userOut (p : Profile)
  | profiles (ps : List Profile)
deriving DecidableEq

/-- An HTTP response: status code and JSON body. -/
structure Resp where
  status : Nat
  body : RespBody
deriving DecidableEq

/-- JavaScript truthiness of a possibly-absent string body field:
undefined/null and the empty string are falsy. -/
def truthy : Option String → Bool
  | none => false
  | some s => s != ""

/-- Embedding of JavaScript's header.split(" ") on a list of
characters: splits at every space character, keeping empty fields,
accumulating the current field in `acc`. -/
def jsSplitSpaceAux : List Char → List Char → List (List Char)
  | [], acc => [acc.reverse]
  | c :: cs, acc =>
      if c = ' ' then acc.reverse :: jsSplitSpaceAux cs []
      else jsSplitSpaceAux cs (c :: acc)

/-- JavaScript header.split(" "). -/
def jsSplitSpace (l : List Char) : List (List Char) :=
  jsSplitSpaceAux l []

/-- The bearer credential the middleware extracts:
header.split(" ")[1] (src/index.js line 65); `none` is JavaScript
`undefined` (fewer than two fields). -/
def extractToken (h : String) : Option String :=
  ((jsSplitSpace h.toList).map (fun l => String.mk l))[1]?

/-- Modelled from the spec: section 4.2 says the gate splits the
header "on whitespace" and takes the second token. This definition
follows those words (splitting at every whitespace character), to be
compared with `extractToken`, which embeds the source's split on the
space character only. -/
def specSplitWsAux : List Char → List Char → List (List Char)
  | [], acc => [acc.reverse]
  | c :: cs, acc =>
      if c.isWhitespace then acc.reverse :: specSplitWsAux cs []
      else specSplitWsAux cs (c :: acc)

/-- Modelled from the spec: the second whitespace-delimited token of
the header. -/
def specExtractToken (h : String) : Option String :=
  ((specSplitWsAux h.toList []).map (fun l => String.mk l))[1]?

/-- Embedding of the `auth` middleware (src/index.js lines 60-73).
`header` is the Authorization header (`none` when absent); `verify` is
jwt.verify with the process secret and current clock applied, `none`
meaning the library throws (malformed, garbage, bad signature or
expired). When the split yields no second field, jwt.verify receives
undefined and throws, so that case is also "Invalid token". -/
def auth (header : Option String) (verify : String → Option Claims) :
    Except Resp Claims :=
  match header with
  | none => .error { status := 401, body := .msg "No token" }
  | some h =>
    match extractToken h with
    | none => .error { status := 401, body := .msg "Invalid token" }
    | some t =>
      match verify t with
      | none => .error { status := 401, body := .msg "Invalid token" }
      | some c => .ok c

/-- A protected route: the gate runs first; on gate failure the
response is the gate's and the handler is never invoked (no external
calls are made); on success the handler runs with the decoded claims
attached. -/
def protectedRoute (header : Option String) (verify : String → Option Claims)
    (handler : Claims → Resp × List Effect) : Resp × List Effect :=
  match auth header verify with
  | .error r => (r, [])
  | .ok c => handler c

/-- Request body of POST /auth/register. The handler destructures
only email, password and username; a role field, if the client sends
one, is present in the body but never read. -/
structure RegisterBody where
  email : Option String
  password : Option String
  username : Option String
  role : Option String

/-- Embedding of POST /auth/register (src/index.js lines 78-100):
createUser with the provider; on error 400 with the provider message;
on success insert a profiles row with role "user" (the insert outcome
is not inspected) and respond 200 "User registered". -/
def register (b : RegisterBody) (env : Env) : Resp × List Effect :=
  match env.createUserResult with
  | .error m =>
      ({ status := 400, body := .msg m },
       [.authCreateUser b.email b.password])
  | .ok uid =>
      ({ status := 200, body := .msg "User registered" },
       [.authCreateUser b.email b.password,
        .profilesInsert { id := uid, email := b.email, username := b.username,
                          role := some "user" }])

/-- Request body of POST /auth/login. -/
structure LoginBody where
  email : Option String
  password : Option String

/-- Embedding of POST /auth/login (src/index.js lines 105-153):
signInWithPassword; on error or missing user 401 "Invalid
credentials"; then select the profile by the provider user id, 500
"Profile not found" on error or absence; otherwise sign a token from
the profile's id, email and role and respond 200 with token and user. -/
def login (b : LoginBody) (env : Env) : Resp × List Effect :=
  match env.signInResult with
  | none =>
      ({ status := 401, body := .msg "Invalid credentials" },
       [.authSignIn b.email b.password])
  | some uid =>
    match env.profileById uid with
    | none =>
        ({ status := 500, body := .msg "Profile not found" },
         [.authSignIn b.email b.password, .profilesSelect uid])
    | some p =>
        ({ status := 200,
           body := .loginOk
             (jwtSign { id := p.id, email := p.email, role := p.role }
               env.secret env.now) p },
         [.authSignIn b.email b.password, .profilesSelect uid])

/-- Embedding of GET /auth/me (src/index.js lines 159-171), run after
the gate with the decoded claims. -/
def me (c : Claims) (env : Env) : Resp × List Effect :=
  match env.profileById c.id with
  | none =>
      ({ status := 500, body := .msg "Profile not found" },
       [.profilesSelect c.id])
  | some p =>
      ({ status := 200, body := .userOut p }, [.profilesSelect c.id])

/-- Embedding of GET /admin/all-users (src/index.js lines 176-188). -/
def allUsers (c : Claims) (env : Env) : Resp × List Effect :=
  if c.role ≠ "admin" then
    ({ status := 403, body := .msg "Not allowed" }, [])
  else
    match env.allProfiles with
    | none =>
        ({ status := 500, body := .msg "Error fetching users" },
         [.profilesSelectAll])
    | some ps =>
        ({ status := 200, body := .profiles ps }, [.profilesSelectAll])

/-- Request body of POST /admin/create-user. -/
structure CreateUserBody where
  email : Option String
  password : Option String
  username : Option String
  role : Option String

/-- Embedding of POST /admin/create-user (src/index.js lines 193-227):
role check first, then the all-fields-truthy check, then provider
createUser, then the profiles insert with the caller-supplied role. -/
def createUser (c : Claims) (b : CreateUserBody) (env : Env) :
    Resp × List Effect :=
  if c.role ≠ "admin" then
    ({ status := 403, body := .msg "Not allowed" }, [])
  else if !truthy b.email || !truthy b.password
      || !truthy b.username || !truthy b.role then
    ({ status := 400, body := .msg "All fields required" }, [])
  else
    match env.createUserResult with
    | .error m =>
        ({ status := 400, body := .msg m },
         [.authCreateUser b.email b.password])
    | .ok uid =>
      match env.insertError with
      | some _ =>
          ({ status := 500, body := .msg "Profile insert failed" },
           [.authCreateUser b.email b.password,
            .profilesInsert { id := uid, email := b.email,
                              username := b.username, role := b.role }])
      | none =>
          ({ status := 200, body := .msg "User created successfully" },
           [.authCreateUser b.email b.password,
            .profilesInsert { id := uid, email := b.email,
                              username := b.username, role := b.role }])

/-- Request body of PUT /admin/update-user/:id; every field optional. -/
structure UpdateBody where
  email : Option String
  username : Option String
  role : Option String

/-- Embedding of PUT /admin/update-user/:id (src/index.js lines
232-264): role check, then the profiles update (absent body fields are
dropped from the payload, so those columns are untouched), 400 with
the store message on update error; then, only when email is truthy,
the provider updateUserById call, 400 with the provider message on its
error; otherwise 200 "User updated successfully". -/
def updateUser (c : Claims) (pid : String) (b : UpdateBody) (env : Env) :
    Resp × List Effect :=
  if c.role ≠ "admin" then
    ({ status := 403, body := .msg "Not allowed" }, [])
  else
    match env.updateError with
    | some m =>
        ({ status := 400, body := .msg m },
         [.profilesUpdate pid b.email b.username b.role])
    | none =>
      if truthy b.email then
        match env.authUpdateError with
        | some m =>
            ({ status := 400, body := .msg m },
             [.profilesUpdate pid b.email b.username b.role,
              .authUpdateUserById pid (b.email.getD "")])
        | none =>
            ({ status := 200, body := .msg "User updated successfully" },
             [.profilesUpdate pid b.email b.username b.role,
              .authUpdateUserById pid (b.email.getD "")])
      else
        ({ status := 200, body := .msg "User updated successfully" },
         [.profilesUpdate pid b.email b.username b.role])

/-- A stored profiles row with nullable columns, for the store-state
semantics of the write effects. -/
structure Row where
  email : Option String
  username : Option String
  role : Option String
deriving DecidableEq

/-- The profiles table, keyed by id. -/
def Store : Type := String → Option Row

/-- A column update: a supplied value replaces the column, an absent
one leaves it. -/
def updField (newv old : Option String) : Option String :=
  match newv with
  | some v => some v
  | none => old

/-- Modelled from the spec: the relational store is an external
collaborator (section 2); insert adds a row keyed by id, and update
sets exactly the supplied columns of the row matching the id
(section 4.8: any subset updates the corresponding Profile columns).
Identity-provider calls and reads leave the table unchanged. -/
def applyEffect (st : Store) : Effect → Store
  | .profilesInsert r => fun i =>
      if i = r.id then some { email := r.email, username := r.username,
                              role := r.role }
      else st i
  | .profilesUpdate uid e u ro => fun i =>
      if i = uid then
        (st i).map (fun row =>
          { email := updField e row.email,
            username := updField u row.username,
            role := updField ro row.role })
      else st i
  | _ => st

/-- Runs a handler's effect list against the table, in order. -/
def applyEffects (st : Store) : List Effect → Store
  | [] => st
  | e :: es => applyEffects (applyEffect st e) es

/-!
Theorems settling the claims.
-/

/-- C1: whenever the identity provider accepts the registration, the
register handler inserts a profiles row whose role is "user", for
every request body — including any role value the client supplied,
which the handler never reads. -/
theorem register_inserts_role_user (b : RegisterBody) (env : Env)
    (uid : String) (h : env.createUserResult = .ok uid) :
    register b env =
      ({ status := 200, body := .msg "User registered" },
       [.authCreateUser b.email b.password,
        .profilesInsert { id := uid, email := b.email, username := b.username,
                          role := some "user" }]) := by
  simp [register, h]

/-- Witness for C1: a client sending role "admin" still gets a row
with role "user". -/
theorem register_inserts_role_user_witness :
    register { email := some "a@x.com", password := some "p",
               username := some "a", role := some "admin" }
      { secret := "s", now := 0, createUserResult := .ok "u1",
        insertError := none, signInResult := none,
        profileById := fun _ => none, allProfiles := none,
        updateError := none, authUpdateError := none } =
      ({ status := 200, body := .msg "User registered" },
       [.authCreateUser (some "a@x.com") (some "p"),
        .profilesInsert { id := "u1", email := some "a@x.com",
                          username := some "a", role := some "user" }]) :=
  register_inserts_role_user _ _ "u1" rfl

/-- C2: a token signed for claims `c` verifies, immediately and under
the same secret, back to exactly `c`; once the clock reaches or passes
the 7-day expiry, verification of the same token fails. -/
theorem token_roundtrip_and_expiry (c : Claims) (secret : String)
    (now later : Nat) (h : now + sevenDays ≤ later) :
    jwtVerify (jwtSign c secret now) secret now = some c
    ∧ jwtVerify (jwtSign c secret now) secret later = none := by
  have h2 : ¬ later < now + sevenDays := by
    simp only [sevenDays] at h ⊢
    omega
  constructor
  · simp [jwtVerify, jwtSign, sevenDays]
  · simp [jwtVerify, jwtSign, h2]

/-- Witness for C2: concrete claims, signed at time 0, verify at time
0 and fail at time 604800 (exactly seven days). -/
theorem token_roundtrip_and_expiry_witness :
    jwtVerify (jwtSign { id := "u1", email := "a@x.com", role := "user" }
        "s" 0) "s" 0 =
      some { id := "u1", email := "a@x.com", role := "user" }
    ∧ jwtVerify (jwtSign { id := "u1", email := "a@x.com", role := "user" }
        "s" 0) "s" 604800 = none :=
  token_roundtrip_and_expiry _ "s" 0 604800 (by decide)

/-- C6: when the provider accepts the registration, the register
handler answers 200 "User registered" whatever the insert outcome: the
response is the same for every value of the insert error slot, which
the handler never inspects. -/
theorem register_ignores_insert_outcome (b : RegisterBody) (env : Env)
    (uid : String) (h : env.createUserResult = .ok uid)
    (e : Option String) :
    (register b env).1 = { status := 200, body := .msg "User registered" }
    ∧ register b { env with insertError := e } = register b env := by
  constructor
  · simp [register, h]
  · simp [register]

/-- Witness for C6: with the insert failing, the response is still
200 "User registered". -/
theorem register_ignores_insert_outcome_witness :
    (register { email := some "b@x.com", password := some "p",
                username := some "b", role := none }
      { secret := "s", now := 0, createUserResult := .ok "u2",
        insertError := some "duplicate key", signInResult := none,
        profileById := fun _ => none, allProfiles := none,
        updateError := none, authUpdateError := none }).1 =
      { status := 200, body := .msg "User registered" } :=
  (register_ignores_insert_outcome _ _ "u2" rfl none).1

/-- C7: when the provider sign-in fails (error or no user), the login
handler answers 401 "Invalid credentials" and its only external call
is the sign-in itself: no profile lookup is performed and the response
carries no token. -/
theorem login_rejects_bad_credentials (b : LoginBody) (env : Env)
    (h : env.signInResult = none) :
    login b env =
      ({ status := 401, body := .msg "Invalid credentials" },
       [.authSignIn b.email b.password]) := by
  simp [login, h]

/-- Witness for C7: a concrete failed sign-in yields 401 with only the
sign-in call recorded. -/
theorem login_rejects_bad_credentials_witness :
    login { email := some "a@x.com", password := some "wrong" }
      { secret := "s", now := 0, createUserResult := .ok "u1",
        insertError := none, signInResult := none,
        profileById := fun _ =>
          some { id := "u1", email := "a@x.com", username := "a",
                 role := "user" },
        allProfiles := none, updateError := none, authUpdateError := none } =
      ({ status := 401, body := .msg "Invalid credentials" },
       [.authSignIn (some "a@x.com") (some "wrong")]) :=
  login_rejects_bad_credentials _ _ rfl

/-- C3: a caller whose valid claims carry a role other than "admin"
receives 403 "Not allowed" from each of the three /admin routes, and
the handler performs no store or provider call. -/
theorem admin_routes_reject_non_admin (c : Claims) (h : c.role ≠ "admin")
    (env : Env) (b : CreateUserBody) (ub : UpdateBody) (pid : String) :
    allUsers c env = ({ status := 403, body := .msg "Not allowed" }, [])
    ∧ createUser c b env = ({ status := 403, body := .msg "Not allowed" }, [])
    ∧ updateUser c pid ub env =
        ({ status := 403, body := .msg "Not allowed" }, []) := by
  refine ⟨?_, ?_, ?_⟩ <;> simp [allUsers, createUser, updateUser, h]

/-- Witness for C3: a caller with role "user" gets 403 and an empty
effect list from all three admin routes. -/
theorem admin_routes_reject_non_admin_witness :
    allUsers { id := "u1", email := "a@x.com", role := "user" }
      { secret := "s", now := 0, createUserResult := .ok "u9",
        insertError := none, signInResult := none,
        profileById := fun _ => none, allProfiles := some [],
        updateError := none, authUpdateError := none } =
      ({ status := 403, body := .msg "Not allowed" }, [])
    ∧ createUser { id := "u1", email := "a@x.com", role := "user" }
        { email := some "c@x.com", password := some "p",
          username := some "c", role := some "admin" }
        { secret := "s", now := 0, createUserResult := .ok "u9",
          insertError := none, signInResult := none,
          profileById := fun _ => none, allProfiles := some [],
          updateError := none, authUpdateError := none } =
        ({ status := 403, body := .msg "Not allowed" }, [])
    ∧ updateUser { id := "u1", email := "a@x.com", role := "user" } "u2"
        { email := none, username := some "n", role := none }
        { secret := "s", now := 0, createUserResult := .ok "u9",
          insertError := none, signInResult := none,
          profileById := fun _ => none, allProfiles := some [],
          updateError := none, authUpdateError := none } =
        ({ status := 403, body := .msg "Not allowed" }, []) :=
  admin_routes_reject_non_admin _ (by decide) _ _ _ "u2"

/-- C10: in the create-user handler the admin role check runs before
the required-field check: a non-admin caller gets 403 even with body
fields missing, and a 400 "All fields required" response implies the
caller was an admin. -/
theorem create_user_role_check_precedes_field_check (c : Claims)
    (b : CreateUserBody) (env : Env) :
    (c.role ≠ "admin" →
      createUser c b env = ({ status := 403, body := .msg "Not allowed" }, []))
    ∧ ((createUser c b env).1.body = .msg "All fields required" →
        c.role = "admin") := by
  constructor
  · intro h
    simp [createUser, h]
  · intro h
    by_contra hr
    simp [createUser, hr] at h

/-- Witness for C10: a non-admin caller with an entirely empty body
still receives 403 "Not allowed", not 400. -/
theorem create_user_role_check_precedes_field_check_witness :
    createUser { id := "u1", email := "a@x.com", role := "user" }
      { email := none, password := none, username := none, role := none }
      { secret := "s", now := 0, createUserResult := .ok "u9",
        insertError := none, signInResult := none,
        profileById := fun _ => none, allProfiles := none,
        updateError := none, authUpdateError := none } =
      ({ status := 403, body := .msg "Not allowed" }, []) :=
  (create_user_role_check_precedes_field_check _ _ _).1 (by decide)

/-- C4: the gate answers 401 "No token" when the Authorization header
is absent and 401 "Invalid token" when the extracted credential is
missing or fails verification; in every such case the handler is
never reached (the result is the same for every handler and no
external call is made). -/
theorem auth_gate_rejections (verify : String → Option Claims) (h : String)
    (handler : Claims → Resp × List Effect) :
    protectedRoute none verify handler =
      ({ status := 401, body := .msg "No token" }, [])
    ∧ (extractToken h = none →
        protectedRoute (some h) verify handler =
          ({ status := 401, body := .msg "Invalid token" }, []))
    ∧ (∀ t, extractToken h = some t → verify t = none →
        protectedRoute (some h) verify handler =
          ({ status := 401, body := .msg "Invalid token" }, [])) := by
  refine ⟨rfl, ?_, ?_⟩
  · intro he
    simp [protectedRoute, auth, he]
  · intro t he hv
    simp [protectedRoute, auth, he, hv]

/-- Witness for C4: with a verifier rejecting every credential, a
missing header gives 401 "No token" and a well-formed bearer header
with a garbage token gives 401 "Invalid token", with no effects. -/
theorem auth_gate_rejections_witness :
    protectedRoute none (fun _ => none)
        (fun _ => ({ status := 200, body := .msg "ok" }, [.profilesSelectAll])) =
      ({ status := 401, body := .msg "No token" }, [])
    ∧ protectedRoute (some "Bearer garbage") (fun _ => none)
        (fun _ => ({ status := 200, body := .msg "ok" }, [.profilesSelectAll])) =
      ({ status := 401, body := .msg "Invalid token" }, []) :=
  ⟨(auth_gate_rejections (fun _ => none) "Bearer garbage"
      (fun _ => ({ status := 200, body := .msg "ok" }, [.profilesSelectAll]))).1,
   (auth_gate_rejections (fun _ => none) "Bearer garbage"
      (fun _ => ({ status := 200, body := .msg "ok" }, [.profilesSelectAll]))).2.2
     "garbage" (by decide) rfl⟩

/-- C8: in an admin update with a truthy email, when the profiles
update succeeds but the provider updateUserById fails, the handler
answers 400 with the provider message, and the profiles row keeps its
updated columns: running the handler's effects over any table holding
the target row leaves that row in its updated state (no rollback). -/
theorem update_user_provider_failure_not_rolled_back (c : Claims)
    (pid : String) (b : UpdateBody) (env : Env) (e m : String)
    (hrole : c.role = "admin") (hem : b.email = some e) (hne : e ≠ "")
    (hupd : env.updateError = none) (hauth : env.authUpdateError = some m) :
    updateUser c pid b env =
      ({ status := 400, body := .msg m },
       [.profilesUpdate pid b.email b.username b.role,
        .authUpdateUserById pid e])
    ∧ ∀ (st : Store) (row : Row), st pid = some row →
        applyEffects st (updateUser c pid b env).2 pid =
          some { email := updField b.email row.email,
                 username := updField b.username row.username,
                 role := updField b.role row.role } := by
  have hres : updateUser c pid b env =
      ({ status := 400, body := .msg m },
       [.profilesUpdate pid b.email b.username b.role,
        .authUpdateUserById pid e]) := by
    simp [updateUser, hrole, hupd, hem, hauth, truthy, hne]
  refine ⟨hres, ?_⟩
  intro st row hst
  rw [hres]
  simp [applyEffects, applyEffect, hst]

/-- Witness for C8: concrete admin update of row u2 where the store
update succeeds and the provider email change fails; the response is
400 with the provider message and the stored row is the updated one. -/
theorem update_user_provider_failure_not_rolled_back_witness :
    updateUser { id := "a1", email := "adm@x.com", role := "admin" } "u2"
      { email := some "new@x.com", username := none, role := none }
      { secret := "s", now := 0, createUserResult := .ok "u9",
        insertError := none, signInResult := none,
        profileById := fun _ => none, allProfiles := none,
        updateError := none, authUpdateError := some "email in use" } =
      ({ status := 400, body := .msg "email in use" },
       [.profilesUpdate "u2" (some "new@x.com") none none,
        .authUpdateUserById "u2" "new@x.com"])
    ∧ applyEffects
        (fun i => if i = "u2" then
            some { email := some "old@x.com", username := some "b",
                   role := some "user" }
          else none)
        (updateUser { id := "a1", email := "adm@x.com", role := "admin" } "u2"
          { email := some "new@x.com", username := none, role := none }
          { secret := "s", now := 0, createUserResult := .ok "u9",
            insertError := none, signInResult := none,
            profileById := fun _ => none, allProfiles := none,
            updateError := none, authUpdateError := some "email in use" }).2
        "u2" =
      some { email := some "new@x.com", username := some "b",
             role := some "user" } :=
  ⟨(update_user_provider_failure_not_rolled_back _ "u2" _ _ "new@x.com"
      "email in use" rfl rfl (by decide) rfl rfl).1,
   (update_user_provider_failure_not_rolled_back _ "u2" _ _ "new@x.com"
      "email in use" rfl rfl (by decide) rfl rfl).2 _
     { email := some "old@x.com", username := some "b", role := some "user" }
     (by decide)⟩

/-- C9: an admin update supplying only a username leaves the target
row's email and role columns unchanged, sets its username to the
supplied value, and makes no identity-provider call. -/
theorem update_user_username_only (c : Claims) (pid u : String) (env : Env)
    (hrole : c.role = "admin") (hupd : env.updateError = none) :
    updateUser c pid { email := none, username := some u, role := none } env =
      ({ status := 200, body := .msg "User updated successfully" },
       [.profilesUpdate pid none (some u) none])
    ∧ (∀ (st : Store) (row : Row), st pid = some row →
        applyEffects st
          (updateUser c pid
            { email := none, username := some u, role := none } env).2 pid =
          some { email := row.email, username := some u, role := row.role })
    ∧ ∀ eff ∈ (updateUser c pid
          { email := none, username := some u, role := none } env).2,
        isProviderCall eff = false := by
  have hres : updateUser c pid
      { email := none, username := some u, role := none } env =
      ({ status := 200, body := .msg "User updated successfully" },
       [.profilesUpdate pid none (some u) none]) := by
    simp [updateUser, hrole, hupd, truthy]
  refine ⟨hres, ?_, ?_⟩
  · intro st row hst
    rw [hres]
    simp [applyEffects, applyEffect, hst, updField]
  · intro eff heff
    rw [hres] at heff
    simp at heff
    rw [heff]
    rfl

/-- Witness for C9: a concrete username-only update of row u2 keeps
its email and role, updates the username, and its one effect is a
store call, not a provider call. -/
theorem update_user_username_only_witness :
    updateUser { id := "a1", email := "adm@x.com", role := "admin" } "u2"
      { email := none, username := some "fresh", role := none }
      { secret := "s", now := 0, createUserResult := .ok "u9",
        insertError := none, signInResult := none,
        profileById := fun _ => none, allProfiles := none,
        updateError := none, authUpdateError := none } =
      ({ status := 200, body := .msg "User updated successfully" },
       [.profilesUpdate "u2" none (some "fresh") none])
    ∧ applyEffects
        (fun i => if i = "u2" then
            some { email := some "b@x.com", username := some "b",
                   role := some "user" }
          else none)
        (updateUser { id := "a1", email := "adm@x.com", role := "admin" } "u2"
          { email := none, username := some "fresh", role := none }
          { secret := "s", now := 0, createUserResult := .ok "u9",
            insertError := none, signInResult := none,
            profileById := fun _ => none, allProfiles := none,
            updateError := none, authUpdateError := none }).2 "u2" =
      some { email := some "b@x.com", username := some "fresh",
             role := some "user" } :=
  ⟨(update_user_username_only _ "u2" "fresh" _ rfl rfl).1,
   (update_user_username_only _ "u2" "fresh" _ rfl rfl).2.1 _
     { email := some "b@x.com", username := some "b", role := some "user" }
     (by decide)⟩

/-- Splitting a space-free list produces the single accumulated field. -/
theorem jsSplitSpaceAux_no_space (t : List Char) :
    ∀ acc : List Char, ' ' ∉ t → jsSplitSpaceAux t acc = [acc.reverse ++ t] := by
  induction t with
  | nil => intro acc _; simp [jsSplitSpaceAux]
  | cons c cs ih =>
    intro acc ht
    rw [List.mem_cons, not_or] at ht
    have hc : ¬ c = ' ' := fun hh => ht.1 hh.symm
    simp only [jsSplitSpaceAux, if_neg hc]
    rw [ih _ ht.2]
    simp

/-- Splitting a list whose space-free prefix is followed by a space
yields that prefix as a field, then the split of the remainder. -/
theorem jsSplitSpaceAux_prefix (ys : List Char) (x : List Char) :
    ∀ acc : List Char, ' ' ∉ x →
      jsSplitSpaceAux (x ++ ' ' :: ys) acc =
        (acc.reverse ++ x) :: jsSplitSpaceAux ys [] := by
  induction x with
  | nil => intro acc _; simp [jsSplitSpaceAux]
  | cons c cs ih =>
    intro acc hx
    rw [List.mem_cons, not_or] at hx
    have hc : ¬ c = ' ' := fun hh => hx.1 hh.symm
    simp only [List.cons_append, jsSplitSpaceAux, if_neg hc, List.append_eq]
    rw [ih _ hx.2]
    simp

/-- C5 counterexample: a header whose separator is a tab — whitespace,
but not the space character — refutes the claim: the split on the
space character yields no second field, so the credential passed to
verification is undefined (`none`), not the second whitespace token
"abc" that splitting on whitespace would give. -/
theorem extract_token_tab_counterexample :
    extractToken "Bearer\tabc" = none
    ∧ specExtractToken "Bearer\tabc" = some "abc"
    ∧ (∀ verify : String → Option Claims,
        auth (some "Bearer\tabc") verify =
          .error { status := 401, body := .msg "Invalid token" }) := by
  refine ⟨by decide, by decide, ?_⟩
  intro verify
  simp [auth, show extractToken "Bearer\tabc" = none from by decide]

/-- C5 amended: the gate splits the header on the space character
(U+0020), not on all whitespace, and takes the second field; for every
header of the form "x t" or "x t r" whose fields x and t are space-free
and separated by single spaces, the credential handed to the verifier
is exactly t, with no check that x is a Bearer scheme prefix. -/
theorem extract_token_space_separated (x t : List Char) (r : String)
    (hx : ' ' ∉ x) (ht : ' ' ∉ t) :
    extractToken (String.mk (x ++ ' ' :: t)) = some (String.mk t)
    ∧ extractToken (String.mk (x ++ ' ' :: t ++ ' ' :: r.toList)) =
        some (String.mk t)
    ∧ ∀ (verify : String → Option Claims),
        auth (some (String.mk (x ++ ' ' :: t))) verify =
          match verify (String.mk t) with
          | none => .error { status := 401, body := .msg "Invalid token" }
          | some c => .ok c := by
  have h1 : extractToken (String.mk (x ++ ' ' :: t)) = some (String.mk t) := by
    show ((jsSplitSpace (x ++ ' ' :: t)).map (fun l => String.mk l))[1]? =
      some (String.mk t)
    rw [jsSplitSpace, jsSplitSpaceAux_prefix t x [] hx,
      jsSplitSpaceAux_no_space t [] ht]
    simp
  have h2 : extractToken (String.mk (x ++ ' ' :: t ++ ' ' :: r.toList)) =
      some (String.mk t) := by
    show ((jsSplitSpace (x ++ ' ' :: t ++ ' ' :: r.toList)).map
        (fun l => String.mk l))[1]? = some (String.mk t)
    rw [show x ++ ' ' :: t ++ ' ' :: r.toList =
        x ++ ' ' :: (t ++ ' ' :: r.toList) from by simp]
    rw [jsSplitSpace, jsSplitSpaceAux_prefix (t ++ ' ' :: r.toList) x [] hx,
      jsSplitSpaceAux_prefix r.toList t [] ht]
    simp
  refine ⟨h1, h2, ?_⟩
  intro verify
  simp only [auth, h1]

/-- Witness for C5's amended claim: the scheme word "Token" — not
"Bearer" — followed by a space and a credential still hands exactly
that credential to the verifier. -/
theorem extract_token_space_separated_witness :
    extractToken (String.mk ("Token".toList ++ ' ' :: "abc123".toList)) =
      some (String.mk "abc123".toList)
    ∧ extractToken (String.mk ("Token".toList ++ ' ' :: "abc123".toList
        ++ ' ' :: "extra".toList)) = some (String.mk "abc123".toList) :=
  ⟨(extract_token_space_separated "Token".toList "abc123".toList "extra"
      (by decide) (by decide)).1,
   (extract_token_space_separated "Token".toList "abc123".toList "extra"
      (by decide) (by decide)).2.1⟩
